import Mathlib

/-!
Verification of the ZKTeco biometric attendance connector
(`advanced_attendance/zkteco_connector.py`).

The Python module is shallowly embedded: each Python function becomes a
Lean function over explicit state.  Network effects (the single
request/reply datagram exchanges performed through the UDP socket) are
modelled by passing the device's reply for each exchange as an explicit
parameter; a reply is either one datagram of bytes (`NetReply.ok`) or a
timeout / socket error, which in the Python code raises an exception
that the connector catches (`NetReply.err`).  Byte buffers are lists of
naturals (each byte `< 256` where it matters); machine integers are
naturals with explicit bounds.  External collaborators (the employee
directory `frappe.db.get_value`, the destination checkin store
`frappe.db.exists` / `insert`, the per-device sync in the fleet
orchestrator) are parameters, following the interface the code uses.
-/

/-- A raw attendance record decoded from one 40-byte device log slot
(`get_attendance_logs`, lines 100-110). -/
structure PunchLog where
  user_id : Nat
  timestamp : Nat
  verify_type : Nat
  in_out_type : Nat
deriving Repr, DecidableEq

/-- An `Employee Checkin` document as created by `sync_device`
(lines 192-198).  `time` is the punch timestamp (epoch seconds; the
Python `datetime.fromtimestamp` conversion is injective on it, so the
epoch value itself stands for the datetime). -/
structure Checkin where
  employee : String
  time : Nat
  log_type : String
  device_id : String
deriving Repr, DecidableEq

/-- Connector state: `__init__` (lines 31-36) plus whether `self.socket`
currently holds an open socket (it is `None`, i.e. `socketOpen = false`,
until `connect` creates one; `disconnect` closes it and resets it). -/
structure ConnState where
  device_ip : String
  device_port : Nat
  sessionId : Nat
  replyId : Nat
  socketOpen : Bool
deriving Repr, DecidableEq

/-- The device's behaviour for one request/reply exchange: either one
reply datagram, or a timeout / socket error (which in Python surfaces as
an exception that the caller catches). -/
inductive NetReply where
  | ok (data : List Nat)
  | err
deriving Repr, DecidableEq

/-- `ZKTecoConnector.__init__` (lines 31-36): fresh state, session and
reply ids zero, no socket. -/
def initConn (device_ip : String) (device_port : Nat) : ConnState :=
  { device_ip := device_ip, device_port := device_port,
    sessionId := 0, replyId := 0, socketOpen := false }

/-- `struct.pack('H', n)`: two bytes, little endian (native x86 order).
`struct.pack` raises for `n ≥ 2^16`; theorems about the header therefore
carry that bound as a hypothesis. -/
def u16le (n : Nat) : List Nat :=
  [n % 256, n / 256 % 256]

/-- `struct.unpack('H', data[off:off+2])[0]`: read an unsigned 16-bit
little-endian value at `off` (missing bytes read as 0; call sites all
check the length first). -/
def readU16 (data : List Nat) (off : Nat) : Nat :=
  data.getD off 0 + 256 * data.getD (off + 1) 0

/-- `struct.unpack('I', data[off:off+4])[0]`: unsigned 32-bit little
endian at `off`. -/
def readU32 (data : List Nat) (off : Nat) : Nat :=
  data.getD off 0 + 256 * data.getD (off + 1) 0 +
    65536 * data.getD (off + 2) 0 + 16777216 * data.getD (off + 3) 0

/-- `ZKTecoConnector._create_header` (lines 120-124):
`struct.pack('HHHH', command, 0, session_id, reply_id)` followed by
`struct.pack('H', data_len)`. -/
def create_header (command sessionId replyId dataLen : Nat) : List Nat :=
  u16le command ++ u16le 0 ++ u16le sessionId ++ u16le replyId ++ u16le dataLen

/-- The datagram `connect` sends (lines 45-46):
`self._create_header(1000, 0)` built from the connector's current
session and reply ids. -/
def connect_request (st : ConnState) : List Nat :=
  create_header 1000 st.sessionId st.replyId 0

/-- `ZKTecoConnector.connect` (lines 38-60).  A socket is created and
the connect command sent (`connect_request st`); then:
  * reply of at least 8 bytes: store `session_id` from bytes 4..6 and
    `reply_id` from bytes 6..8, return `True`;
  * shorter reply: return `False`;
  * timeout or socket error (exception): caught at line 58, logged,
    return `False`.
On every `False` path the socket created at line 41 is left open
(`self.socket` is not reset). -/
def connect (st : ConnState) (reply : NetReply) : Bool × ConnState :=
  let st1 := { st with socketOpen := true }
  match reply with
  | .err => (false, st1)
  | .ok data =>
    if 8 ≤ data.length then
      (true, { st1 with sessionId := readU16 data 4, replyId := readU16 data 6 })
    else
      (false, st1)

/-- `ZKTecoConnector.disconnect` (lines 62-71): if a socket is present,
best-effort send the disconnect command, close the socket and reset it;
all errors swallowed; no socket means no-op. -/
def disconnect (st : ConnState) : ConnState :=
  if st.socketOpen then { st with socketOpen := false } else st

/-- Decode one 40-byte log slot at `off` (lines 100-103): `user_id` and
`timestamp` as unsigned 32-bit little endian, then the verify-type byte
at `off+8` and the in/out byte at `off+9`; bytes `off+10 .. off+39` are
skipped. -/
def decodeSlot (data : List Nat) (off : Nat) : PunchLog :=
  { user_id := readU32 data off
    timestamp := readU32 data (off + 4)
    verify_type := data.getD (off + 8) 0
    in_out_type := data.getD (off + 9) 0 }

/-- The parsing loop of `get_attendance_logs` (lines 95-112):
`while offset < len(data): if offset + 40 > len(data): break; ...;
offset += 40`.  The loop body runs exactly when `offset + 40 ≤
len(data)` (which implies `offset < len(data)`). -/
def parseLogs (data : List Nat) (offset : Nat) : List PunchLog :=
  if h : offset + 40 ≤ data.length then
    decodeSlot data offset :: parseLogs data (offset + 40)
  else
    []
termination_by data.length - offset
decreasing_by omega

/-- `ZKTecoConnector.get_attendance_logs` (lines 73-118).  If
`self.socket` is `None` the `sendto` raises `AttributeError`, which the
`except` at line 116 catches, logging and returning `[]`; a timeout or
socket error is caught the same way; a reply shorter than 8 bytes
returns `[]`; otherwise the 40-byte slots after the 8-byte header are
decoded. -/
def get_attendance_logs (st : ConnState) (reply : NetReply) : List PunchLog :=
  if st.socketOpen = false then []
  else
    match reply with
    | .err => []
    | .ok data => if data.length < 8 then [] else parseLogs data 8

/-- Line 178: `log_type = 'IN' if log['in_out_type'] == 0 else 'OUT'`. -/
def logTypeOf (inOut : Nat) : String :=
  if inOut == 0 then "IN" else "OUT"

/-- Line 170: the error string appended for an unmapped device user id. -/
def employeeNotFoundMsg (uid : Nat) : String :=
  "Employee not found for device ID: " ++ toString uid

/-- Line 208: the error string appended when processing record `i`
raises (the exception text is abstracted). -/
def processingErrorMsg (i : Nat) : String :=
  "Error processing log " ++ toString i ++ ": insert failed"

/-- `frappe.db.exists('Employee Checkin', {...})` (lines 181-188): does
the store hold a checkin with this (employee, time, log_type) triple? -/
def checkinExists (store : List Checkin) (emp : String) (t : Nat) (lt : String) : Bool :=
  store.any fun c => c.employee == emp && c.time == t && c.log_type == lt

/-- Accumulator of the per-record loop of `sync_device` (lines 156-209):
the synced counter, the error list, and the destination checkin store. -/
structure ProcState where
  synced : Nat
  errors : List String
  store : List Checkin
deriving Repr, DecidableEq

/-- One iteration of the `sync_device` loop (lines 160-209) on record
`log` at enumerate-index `i`:
  * resolve the user id via the employee directory
    (`frappe.db.get_value('Employee', {'attendance_device_id':
    str(log['user_id'])}, 'name')`); if unresolved, append the error and
    continue (lines 169-171);
  * derive punch time and log type (lines 175-178);
  * skip if a matching checkin exists (lines 181-190);
  * otherwise insert the checkin and bump the counter (lines 192-200);
    a store failure while inserting (`failAt i`) raises, is caught at
    line 207 and appended to the error list.
The batch `frappe.db.commit()` calls (lines 203-205, 212) do not change
the visible store contents and are not modelled. -/
def processOne (device_ip : String) (dir : String → Option String)
    (failAt : Nat → Bool) (i : Nat) (log : PunchLog) (ps : ProcState) : ProcState :=
  match dir (toString log.user_id) with
  | none => { ps with errors := ps.errors ++ [employeeNotFoundMsg log.user_id] }
  | some emp =>
    let t := log.timestamp
    let lt := logTypeOf log.in_out_type
    if checkinExists ps.store emp t lt then ps
    else if failAt i then
      { ps with errors := ps.errors ++ [processingErrorMsg i] }
    else
      { ps with
          synced := ps.synced + 1
          store := ps.store ++ [{ employee := emp, time := t, log_type := lt,
                                  device_id := device_ip }] }

/-- The full `for i, log in enumerate(logs):` loop (lines 160-209). -/
def processLogs (device_ip : String) (dir : String → Option String)
    (failAt : Nat → Bool) (i : Nat) (logs : List PunchLog) (ps : ProcState) : ProcState :=
  match logs with
  | [] => ps
  | log :: rest =>
    processLogs device_ip dir failAt (i + 1) rest
      (processOne device_ip dir failAt i log ps)

/-- No injected store failures: every insert succeeds. -/
def noFail : Nat → Bool := fun _ => false

/-- The result dictionary of `sync_device` (its `synced` and `errors`
keys are absent on some paths, hence `Option`). -/
structure SyncRes where
  success : Bool
  message : String
  synced : Option Nat
  errors : Option (List String)
deriving Repr, DecidableEq

/-- The device's behaviour over the two exchanges `sync_device`
performs: the connect reply and the read-logs reply. -/
structure DeviceBehavior where
  connectReply : NetReply
  logsReply : NetReply
deriving Repr, DecidableEq

/-- Everything observable after a `sync_device` call: the returned
dictionary, the destination store, and the connector's final state. -/
structure SyncOutcome where
  res : SyncRes
  store : List Checkin
  conn : ConnState
deriving Repr, DecidableEq

/-- `ZKTecoConnector.sync_device` (lines 126-228).  Constructs a fresh
connector, connects; on connect failure returns the failure dictionary
at lines 141-144 (no `disconnect`: the early `return` at line 141 is
outside the `try/finally` of lines 146-228).  Otherwise reads the logs;
an empty log returns the lines 150-154 dictionary; otherwise the
per-record loop runs and the lines 214-219 dictionary is returned.  The
`finally` at line 227 runs `disconnect` on every path of the `try`
body. -/
def sync_device (device_ip : String) (device_port : Nat) (beh : DeviceBehavior)
    (dir : String → Option String) (failAt : Nat → Bool)
    (store : List Checkin) : SyncOutcome :=
  let st0 := initConn device_ip device_port
  let c := connect st0 beh.connectReply
  if c.1 = false then
    { res := { success := false
               message := "Failed to connect to device at " ++ device_ip ++ ":"
                            ++ toString device_port
               synced := none, errors := none }
      store := store
      conn := c.2 }
  else
    let logs := get_attendance_logs c.2 beh.logsReply
    if logs.isEmpty then
      { res := { success := true, message := "No new attendance logs found"
                 synced := some 0, errors := none }
        store := store
        conn := disconnect c.2 }
    else
      let r := processLogs device_ip dir failAt 0 logs
                 { synced := 0, errors := [], store := store }
      { res := { success := true
                 message := "Synced " ++ toString r.synced ++ " attendance logs"
                 synced := some r.synced
                 errors := if r.errors.isEmpty then none else some r.errors }
        store := r.store
        conn := disconnect c.2 }

/-- A configured device row as returned by
`frappe.get_all('Biometric Device Settings', ...)` (lines 256-260). -/
structure Device where
  name : String
  device_ip : String
  device_port : Nat
deriving Repr, DecidableEq

/-- The result dictionary of `sync_all_devices`; keys absent on some
paths are `Option`. -/
structure FleetRes where
  success : Bool
  message : String
  devices_synced : Nat
  total_records : Option Nat
  results : Option (List (String × String × SyncRes))
  errors : Option (List String)
deriving Repr, DecidableEq

/-- One iteration of the device loop of `sync_all_devices`
(lines 273-290): run the per-device sync; on a normal result append it
to `results` and either add its `synced` count (success) or an error
entry (failure); if the sync raises, append only an error entry. -/
def fleetStep (run : Device → Except String SyncRes)
    (acc : List (String × String × SyncRes) × Nat × List String)
    (d : Device) : List (String × String × SyncRes) × Nat × List String :=
  match run d with
  | .ok result =>
    let results := acc.1 ++ [(d.name, d.device_ip, result)]
    if result.success then
      (results, acc.2.1 + result.synced.getD 0, acc.2.2)
    else
      (results, acc.2.1, acc.2.2 ++ [d.name ++ ": " ++ result.message])
  | .error e =>
    (acc.1, acc.2.1, acc.2.2 ++ [d.name ++ ": " ++ e])

/-- `sync_all_devices` (lines 246-307).  `config` models the
`frappe.get_all` call (`.error` = the call raised, caught at line 301);
`run` models `ZKTecoConnector.sync_device(device.device_ip,
device.device_port)` for one device (`.error` = it raised, caught at
line 287). -/
def sync_all_devices (config : Except String (List Device))
    (run : Device → Except String SyncRes) : FleetRes :=
  match config with
  | .error e =>
    { success := false, message := "Error syncing devices: " ++ e
      devices_synced := 0, total_records := none, results := none, errors := none }
  | .ok devices =>
    if devices.isEmpty then
      { success := true
        message := "No enabled devices found. Please configure and enable devices in Biometric Device Settings."
        devices_synced := 0, total_records := none, results := none, errors := none }
    else
      let folded := devices.foldl (fleetStep run) ([], 0, [])
      let total := folded.2.1
      let n := devices.length
      { success := true
        message := "Synced " ++ toString total ++ " records from " ++ toString n
                     ++ " device(s)"
        devices_synced := n
        total_records := some total
        results := some folded.1
        errors := if folded.2.2.isEmpty then none else some folded.2.2 }

/-- `struct.pack('I', n)`: four bytes, little endian. -/
def u32le (n : Nat) : List Nat :=
  [n % 256, n / 256 % 256, n / 65536 % 256, n / 16777216 % 256]

/-- One 40-byte device log slot: user id, timestamp, verify byte, in/out
byte, thirty reserved zero bytes (wire layout, spec section 6). -/
def slotBytes (uid ts vt io : Nat) : List Nat :=
  u32le uid ++ u32le ts ++ [vt, io] ++ List.replicate 30 0

/-- The dedup key a record would use, when its user id resolves. -/
def keyOf (dir : String → Option String) (l : PunchLog) : Option (String × Nat × String) :=
  (dir (toString l.user_id)).map fun e => (e, l.timestamp, logTypeOf l.in_out_type)

/-- Whether a record would be newly inserted against `store`: its user
id resolves and no checkin with its dedup key exists yet. -/
def newGood (dir : String → Option String) (store : List Checkin) (l : PunchLog) : Bool :=
  match dir (toString l.user_id) with
  | none => false
  | some e => !(checkinExists store e l.timestamp (logTypeOf l.in_out_type))

/-- The error entry an unresolvable record contributes, if any. -/
def unresolvedMsg (dir : String → Option String) (l : PunchLog) : Option String :=
  match dir (toString l.user_id) with
  | none => some (employeeNotFoundMsg l.user_id)
  | some _ => none

/-- Records contributed by one device to the fleet total: its synced
count when its sync returned success, else zero (line 282-283). -/
def recordsOf (run : Device → Except String SyncRes) (d : Device) : Nat :=
  match run d with
  | .ok r => if r.success then r.synced.getD 0 else 0
  | .error _ => 0

/-- The fleet error entry one device contributes, if any: its message on
a failed result (line 285), the exception text if its sync raised
(line 288-289). -/
def errEntryOf (run : Device → Except String SyncRes) (d : Device) : Option String :=
  match run d with
  | .ok r => if r.success then none else some (d.name ++ ": " ++ r.message)
  | .error e => some (d.name ++ ": " ++ e)

/-- The `results` entry one device contributes, if any (lines 276-280). -/
def resultEntryOf (run : Device → Except String SyncRes) (d : Device) :
    Option (String × String × SyncRes) :=
  match run d with
  | .ok r => some (d.name, d.device_ip, r)
  | .error _ => none

/-- Two raw records agree on every field the reconciliation step reads
(everything but the verify-type byte). -/
def SameObs (a b : PunchLog) : Prop :=
  a.user_id = b.user_id ∧ a.timestamp = b.timestamp ∧ a.in_out_type = b.in_out_type

/-- Byte positions of a device reply that the log decoder reads: the
header region and, within each 40-byte slot starting at offset 8, the
user-id bytes (slot offsets 0-3), timestamp bytes (4-7) and the in/out
byte (9).  The verify byte (slot offset 8) and the reserved bytes
(10-39) are excluded. -/
def relevantPos (i : Nat) : Prop :=
  i < 8 ∨ (i - 8) % 40 < 8 ∨ (i - 8) % 40 = 9

theorem getD_take_lt (l : List Nat) (m n : Nat) (h : n < m) :
    (l.take m).getD n 0 = l.getD n 0 := by
  rcases Nat.lt_or_ge n l.length with hl | hl
  · rw [List.getD_eq_getElem _ _ (by simp; omega), List.getD_eq_getElem _ _ hl]
    simp [List.getElem_take]
  · rw [List.getD_eq_default _ _ (by simp; omega), List.getD_eq_default _ _ hl]

theorem countP_congr_mem (l : List PunchLog) (p q : PunchLog → Bool)
    (h : ∀ a ∈ l, p a = q a) : l.countP p = l.countP q := by
  induction l with
  | nil => rfl
  | cons a t ih =>
    simp only [List.countP_cons, h a (by simp), ih fun x hx => h x (by simp [hx])]

theorem parseLogs_step (data : List Nat) (offset : Nat) (h : offset + 40 ≤ data.length) :
    parseLogs data offset = decodeSlot data offset :: parseLogs data (offset + 40) := by
  rw [parseLogs]
  simp [h]

theorem parseLogs_stop (data : List Nat) (offset : Nat) (h : data.length < offset + 40) :
    parseLogs data offset = [] := by
  rw [parseLogs]
  simp
  omega

theorem parseLogs_length (data : List Nat) (offset : Nat) :
    (parseLogs data offset).length = (data.length - offset) / 40 := by
  have key : ∀ (fuel off : Nat), data.length - off ≤ fuel →
      (parseLogs data off).length = (data.length - off) / 40 := by
    intro fuel
    induction fuel with
    | zero =>
      intro off h
      rw [parseLogs_stop data off (by omega)]
      simp
      omega
    | succ n ih =>
      intro off h
      by_cases hc : off + 40 ≤ data.length
      · rw [parseLogs_step data off hc]
        simp only [List.length_cons, ih (off + 40) (by omega)]
        omega
      · rw [parseLogs_stop data off (by omega)]
        simp
        omega
  exact key (data.length - offset) offset le_rfl

theorem decodeSlot_take (data : List Nat) (off m : Nat) (h : off + 40 ≤ m) :
    decodeSlot (data.take m) off = decodeSlot data off := by
  simp only [decodeSlot, readU32]
  rw [getD_take_lt _ _ _ (by omega), getD_take_lt _ _ _ (by omega),
    getD_take_lt _ _ _ (by omega), getD_take_lt _ _ _ (by omega),
    getD_take_lt _ _ _ (by omega), getD_take_lt _ _ _ (by omega),
    getD_take_lt _ _ _ (by omega), getD_take_lt _ _ _ (by omega),
    getD_take_lt _ _ _ (by omega), getD_take_lt _ _ _ (by omega)]

theorem parseLogs_take (data : List Nat) (offset : Nat) :
    parseLogs data offset
      = parseLogs (data.take (offset + 40 * ((data.length - offset) / 40))) offset := by
  have key : ∀ (fuel off : Nat), data.length - off ≤ fuel →
      parseLogs data off
        = parseLogs (data.take (off + 40 * ((data.length - off) / 40))) off := by
    intro fuel
    induction fuel with
    | zero =>
      intro off h
      have hq : (data.length - off) / 40 = 0 := by omega
      rw [hq, parseLogs_stop data off (by omega), parseLogs_stop]
      simp
    | succ n ih =>
      intro off h
      by_cases hc : off + 40 ≤ data.length
      · have hq : 1 ≤ (data.length - off) / 40 := by omega
        have hle : 40 * ((data.length - off) / 40) ≤ data.length - off := by
          calc 40 * ((data.length - off) / 40) = (data.length - off) / 40 * 40 := by ring
          _ ≤ data.length - off := Nat.div_mul_le_self _ _
        have hlen : (data.take (off + 40 * ((data.length - off) / 40))).length
            = off + 40 * ((data.length - off) / 40) := by
          simp
          omega
        rw [parseLogs_step data off hc, parseLogs_step _ off (by omega)]
        have hM : off + 40 + 40 * ((data.length - (off + 40)) / 40)
            = off + 40 * ((data.length - off) / 40) := by omega
        rw [decodeSlot_take data off _ (by omega)]
        have := ih (off + 40) (by omega)
        rw [this, hM]
      · have hq : (data.length - off) / 40 = 0 := by omega
        rw [hq, parseLogs_stop data off (by omega), parseLogs_stop]
        simp
  exact key (data.length - offset) offset le_rfl

theorem checkinExists_append (s : List Checkin) (c : Checkin) (e : String) (t : Nat)
    (lt : String) :
    checkinExists (s ++ [c]) e t lt
      = (checkinExists s e t lt || (c.employee == e && c.time == t && c.log_type == lt)) := by
  simp [checkinExists]

theorem checkinExists_mono (s1 s2 : List Checkin) (hsub : ∀ c ∈ s1, c ∈ s2)
    (e : String) (t : Nat) (lt : String) (h : checkinExists s1 e t lt = true) :
    checkinExists s2 e t lt = true := by
  simp only [checkinExists, List.any_eq_true] at h ⊢
  obtain ⟨c, hc, hp⟩ := h
  exact ⟨c, hsub c hc, hp⟩

theorem processOne_store_sub (ip : String) (dir : String → Option String)
    (failAt : Nat → Bool) (i : Nat) (log : PunchLog) (ps : ProcState) :
    ∀ c ∈ ps.store, c ∈ (processOne ip dir failAt i log ps).store := by
  intro c hc
  unfold processOne
  cases hdir : dir (toString log.user_id) with
  | none => simpa using hc
  | some e =>
    simp only []
    by_cases hex : checkinExists ps.store e log.timestamp (logTypeOf log.in_out_type)
    · simpa [hex] using hc
    · by_cases hf : failAt i
      · simp [hex, hf]
        exact hc
      · simp [hex, hf]
        exact Or.inl hc

theorem processLogs_store_sub (ip : String) (dir : String → Option String)
    (failAt : Nat → Bool) (logs : List PunchLog) :
    ∀ (i : Nat) (ps : ProcState) (c : Checkin), c ∈ ps.store →
      c ∈ (processLogs ip dir failAt i logs ps).store := by
  induction logs with
  | nil => intro i ps c hc; exact hc
  | cons a rest ih =>
    intro i ps c hc
    exact ih (i + 1) _ c (processOne_store_sub ip dir failAt i a ps c hc)

theorem processLogs_covers (ip : String) (dir : String → Option String)
    (logs : List PunchLog) :
    ∀ (i : Nat) (ps : ProcState) (l : PunchLog) (e : String), l ∈ logs →
      dir (toString l.user_id) = some e →
      checkinExists (processLogs ip dir noFail i logs ps).store e l.timestamp
        (logTypeOf l.in_out_type) = true := by
  induction logs with
  | nil => intro i ps l e hl; cases hl
  | cons a rest ih =>
    intro i ps l e hl hdir
    rcases List.mem_cons.mp hl with rfl | hmem
    · have base : checkinExists (processOne ip dir noFail i l ps).store e l.timestamp
          (logTypeOf l.in_out_type) = true := by
        unfold processOne
        rw [hdir]
        by_cases hex : checkinExists ps.store e l.timestamp (logTypeOf l.in_out_type)
        · simp [hex]
        · simp [hex, noFail, checkinExists_append]
      exact checkinExists_mono _ _
        (processLogs_store_sub ip dir noFail rest (i + 1) _) _ _ _ base
    · exact ih (i + 1) _ l e hmem hdir

theorem processLogs_noop (ip : String) (dir : String → Option String)
    (logs : List PunchLog) :
    ∀ (i : Nat) (ps : ProcState),
      (∀ l ∈ logs, ∀ e, dir (toString l.user_id) = some e →
        checkinExists ps.store e l.timestamp (logTypeOf l.in_out_type) = true) →
      (processLogs ip dir noFail i logs ps).synced = ps.synced ∧
        (processLogs ip dir noFail i logs ps).store = ps.store := by
  induction logs with
  | nil => intro i ps _; exact ⟨rfl, rfl⟩
  | cons a rest ih =>
    intro i ps h
    cases hdir : dir (toString a.user_id) with
    | none =>
      have hone : processOne ip dir noFail i a ps
          = { ps with errors := ps.errors ++ [employeeNotFoundMsg a.user_id] } := by
        unfold processOne
        rw [hdir]
      have := ih (i + 1) { ps with errors := ps.errors ++ [employeeNotFoundMsg a.user_id] }
        (fun l hl e he => h l (List.mem_cons_of_mem a hl) e he)
      simpa [processLogs, hone] using this
    | some e =>
      have hex := h a (List.mem_cons_self a rest) e hdir
      have hone : processOne ip dir noFail i a ps = ps := by
        unfold processOne
        rw [hdir]
        simp [hex]
      have := ih (i + 1) ps (fun l hl e2 he => h l (List.mem_cons_of_mem a hl) e2 he)
      simpa [processLogs, hone] using this

theorem processLogs_errors (ip : String) (dir : String → Option String)
    (logs : List PunchLog) :
    ∀ (i : Nat) (ps : ProcState),
      (processLogs ip dir noFail i logs ps).errors
        = ps.errors ++ logs.filterMap (unresolvedMsg dir) := by
  induction logs with
  | nil => intro i ps; simp [processLogs]
  | cons a rest ih =>
    intro i ps
    cases hdir : dir (toString a.user_id) with
    | none =>
      have hone : processOne ip dir noFail i a ps
          = { ps with errors := ps.errors ++ [employeeNotFoundMsg a.user_id] } := by
        unfold processOne
        rw [hdir]
      simp [processLogs, hone, ih, unresolvedMsg, hdir]
    | some e =>
      have hone : (processOne ip dir noFail i a ps).errors = ps.errors := by
        unfold processOne
        rw [hdir]
        by_cases hex : checkinExists ps.store e a.timestamp (logTypeOf a.in_out_type) <;>
          simp [hex, noFail]
      simp [processLogs, ih, hone, unresolvedMsg, hdir]

theorem processLogs_synced (ip : String) (dir : String → Option String)
    (logs : List PunchLog) :
    ∀ (i : Nat) (ps : ProcState), (logs.filterMap (keyOf dir)).Nodup →
      (processLogs ip dir noFail i logs ps).synced
        = ps.synced + logs.countP (newGood dir ps.store) := by
  induction logs with
  | nil => intro i ps _; simp [processLogs]
  | cons a rest ih =>
    intro i ps hnd
    cases hdir : dir (toString a.user_id) with
    | none =>
      have hone : processOne ip dir noFail i a ps
          = { ps with errors := ps.errors ++ [employeeNotFoundMsg a.user_id] } := by
        unfold processOne
        rw [hdir]
      have hnd2 : (rest.filterMap (keyOf dir)).Nodup := by
        have hfm : (a :: rest).filterMap (keyOf dir) = rest.filterMap (keyOf dir) := by
          simp [List.filterMap_cons, keyOf, hdir]
        rw [hfm] at hnd
        exact hnd
      have hng : newGood dir ps.store a = false := by simp [newGood, hdir]
      simp [processLogs, hone, ih _ _ hnd2, List.countP_cons, hng]
    | some e =>
      have hkey : keyOf dir a = some (e, a.timestamp, logTypeOf a.in_out_type) := by
        simp [keyOf, hdir]
      have hfm : (a :: rest).filterMap (keyOf dir)
          = (e, a.timestamp, logTypeOf a.in_out_type) :: rest.filterMap (keyOf dir) := by
        simp [List.filterMap_cons, hkey]
      rw [hfm] at hnd
      have hnotmem := (List.nodup_cons.mp hnd).1
      have hnd2 := (List.nodup_cons.mp hnd).2
      by_cases hex : checkinExists ps.store e a.timestamp (logTypeOf a.in_out_type)
      · have hone : processOne ip dir noFail i a ps = ps := by
          unfold processOne
          rw [hdir]
          simp [hex]
        have hng : newGood dir ps.store a = false := by simp [newGood, hdir, hex]
        simp [processLogs, hone, ih _ _ hnd2, List.countP_cons, hng]
      · have hone : processOne ip dir noFail i a ps
            = { ps with synced := ps.synced + 1
                        store := ps.store ++
                          [{ employee := e, time := a.timestamp
                             log_type := logTypeOf a.in_out_type, device_id := ip }] } := by
          unfold processOne
          rw [hdir]
          simp [hex, noFail]
        have hng : newGood dir ps.store a = true := by simp [newGood, hdir, hex]
        have hcount : rest.countP (newGood dir (ps.store ++
              [{ employee := e, time := a.timestamp
                 log_type := logTypeOf a.in_out_type, device_id := ip }]))
            = rest.countP (newGood dir ps.store) := by
          apply countP_congr_mem
          intro l hl
          cases hdl : dir (toString l.user_id) with
          | none => simp [newGood, hdl]
          | some e2 =>
            have hkl : keyOf dir l = some (e2, l.timestamp, logTypeOf l.in_out_type) := by
              simp [keyOf, hdl]
            have hmem : (e2, l.timestamp, logTypeOf l.in_out_type)
                ∈ rest.filterMap (keyOf dir) :=
              List.mem_filterMap.mpr ⟨l, hl, hkl⟩
            have hne : (e2, l.timestamp, logTypeOf l.in_out_type)
                ≠ (e, a.timestamp, logTypeOf a.in_out_type) := by
              intro hcontra
              rw [hcontra] at hmem
              exact hnotmem hmem
            simp only [newGood, hdl]
            rw [checkinExists_append]
            have hfalse : ((e == e2) && (a.timestamp == l.timestamp)
                && (logTypeOf a.in_out_type == logTypeOf l.in_out_type)) = false := by
              by_contra hb
              rw [Bool.not_eq_false] at hb
              simp only [Bool.and_eq_true, beq_iff_eq] at hb
              obtain ⟨⟨h1, h2⟩, h3⟩ := hb
              exact hne (by rw [← h1, ← h2, ← h3])
            simp only [] at hfalse ⊢
            simp [hfalse]
        have hrec := ih (i + 1)
          { ps with synced := ps.synced + 1
                    store := ps.store ++
                      [{ employee := e, time := a.timestamp
                         log_type := logTypeOf a.in_out_type, device_id := ip }] } hnd2
        simp only [processLogs, hone]
        rw [hrec]
        simp [hcount, List.countP_cons, hng]
        omega

theorem decodeSlot_agree (d1 d2 : List Nat) (hlen : d1.length = d2.length)
    (hag : ∀ i, i < d1.length → relevantPos i → d1.getD i 0 = d2.getD i 0)
    (k : Nat) (hk : 8 + 40 * k + 40 ≤ d1.length) :
    SameObs (decodeSlot d1 (8 + 40 * k)) (decodeSlot d2 (8 + 40 * k)) := by
  have h0 := hag (8 + 40 * k) (by omega) (by simp only [relevantPos]; omega)
  have h1 := hag (8 + 40 * k + 1) (by omega) (by simp only [relevantPos]; omega)
  have h2 := hag (8 + 40 * k + 2) (by omega) (by simp only [relevantPos]; omega)
  have h3 := hag (8 + 40 * k + 3) (by omega) (by simp only [relevantPos]; omega)
  have h4 := hag (8 + 40 * k + 4) (by omega) (by simp only [relevantPos]; omega)
  have h5 := hag (8 + 40 * k + 4 + 1) (by omega) (by simp only [relevantPos]; omega)
  have h6 := hag (8 + 40 * k + 4 + 2) (by omega) (by simp only [relevantPos]; omega)
  have h7 := hag (8 + 40 * k + 4 + 3) (by omega) (by simp only [relevantPos]; omega)
  have h9 := hag (8 + 40 * k + 9) (by omega) (by simp only [relevantPos]; omega)
  refine ⟨?_, ?_, ?_⟩ <;> simp only [decodeSlot, readU32]
  · rw [h0, h1, h2, h3]
  · rw [h4, h5, h6, h7]
  · rw [h9]

theorem parseLogs_agree (d1 d2 : List Nat) (hlen : d1.length = d2.length)
    (hag : ∀ i, i < d1.length → relevantPos i → d1.getD i 0 = d2.getD i 0) :
    ∀ k, List.Forall₂ SameObs (parseLogs d1 (8 + 40 * k)) (parseLogs d2 (8 + 40 * k)) := by
  have key : ∀ (fuel k : Nat), d1.length - (8 + 40 * k) ≤ fuel →
      List.Forall₂ SameObs (parseLogs d1 (8 + 40 * k)) (parseLogs d2 (8 + 40 * k)) := by
    intro fuel
    induction fuel with
    | zero =>
      intro k h
      rw [parseLogs_stop d1 _ (by omega), parseLogs_stop d2 _ (by omega)]
      exact List.Forall₂.nil
    | succ n ih =>
      intro k h
      by_cases hc : 8 + 40 * k + 40 ≤ d1.length
      · rw [parseLogs_step d1 (8 + 40 * k) hc, parseLogs_step d2 (8 + 40 * k) (by omega)]
        refine List.Forall₂.cons (decodeSlot_agree d1 d2 hlen hag k hc) ?_
        have harith : 8 + 40 * (k + 1) = 8 + 40 * k + 40 := by ring
        have := ih (k + 1) (by omega)
        rw [harith] at this
        exact this
      · rw [parseLogs_stop d1 _ (by omega), parseLogs_stop d2 _ (by omega)]
        exact List.Forall₂.nil
  intro k
  exact key (d1.length - (8 + 40 * k)) k le_rfl

theorem processOne_obs (ip : String) (dir : String → Option String) (failAt : Nat → Bool)
    (i : Nat) (a b : PunchLog) (h : SameObs a b) (ps : ProcState) :
    processOne ip dir failAt i a ps = processOne ip dir failAt i b ps := by
  obtain ⟨h1, h2, h3⟩ := h
  unfold processOne
  rw [h1, h2, h3]

theorem processLogs_obs (ip : String) (dir : String → Option String) (failAt : Nat → Bool)
    (l1 l2 : List PunchLog) (h : List.Forall₂ SameObs l1 l2) :
    ∀ (i : Nat) (ps : ProcState),
      processLogs ip dir failAt i l1 ps = processLogs ip dir failAt i l2 ps := by
  induction h with
  | nil => intro i ps; rfl
  | cons ha htail ih =>
    intro i ps
    simp only [processLogs]
    rw [processOne_obs ip dir failAt i _ _ ha]
    exact ih (i + 1) _

theorem slotBytes_length (uid ts vt io : Nat) : (slotBytes uid ts vt io).length = 40 := by
  simp [slotBytes, u32le]

theorem decodeSlot_at_prefix (l1 l2 : List Nat) :
    decodeSlot (l1 ++ l2) l1.length
      = { user_id := readU32 l2 0, timestamp := readU32 l2 4
          verify_type := l2.getD 8 0, in_out_type := l2.getD 9 0 } := by
  have H : ∀ c : Nat, (l1 ++ l2).getD (l1.length + c) 0 = l2.getD c 0 := by
    intro c
    rw [List.getD_append_right _ _ _ _ (Nat.le_add_right _ _)]
    simp
  have h0 : (l1 ++ l2).getD l1.length 0 = l2.getD 0 0 := by
    have := H 0
    simpa using this
  have h5 : (l1 ++ l2).getD (l1.length + 4 + 1) 0 = l2.getD 5 0 := by
    rw [show l1.length + 4 + 1 = l1.length + 5 by omega]
    exact H 5
  have h6 : (l1 ++ l2).getD (l1.length + 4 + 2) 0 = l2.getD 6 0 := by
    rw [show l1.length + 4 + 2 = l1.length + 6 by omega]
    exact H 6
  have h7 : (l1 ++ l2).getD (l1.length + 4 + 3) 0 = l2.getD 7 0 := by
    rw [show l1.length + 4 + 3 = l1.length + 7 by omega]
    exact H 7
  simp only [decodeSlot, readU32, h0, H 1, H 2, H 3, H 4, h5, h6, h7, H 8, H 9]

theorem slot_fields (uid ts vt io : Nat) (rest : List Nat)
    (huid : uid < 4294967296) (hts : ts < 4294967296) :
    readU32 (slotBytes uid ts vt io ++ rest) 0 = uid ∧
    readU32 (slotBytes uid ts vt io ++ rest) 4 = ts ∧
    (slotBytes uid ts vt io ++ rest).getD 8 0 = vt ∧
    (slotBytes uid ts vt io ++ rest).getD 9 0 = io := by
  refine ⟨?_, ?_, ?_, ?_⟩ <;>
    simp [slotBytes, u32le, readU32] <;> try omega

theorem fleetFold (run : Device → Except String SyncRes) (devices : List Device) :
    ∀ acc : List (String × String × SyncRes) × Nat × List String,
      devices.foldl (fleetStep run) acc
        = (acc.1 ++ devices.filterMap (resultEntryOf run),
           acc.2.1 + (devices.map (recordsOf run)).sum,
           acc.2.2 ++ devices.filterMap (errEntryOf run)) := by
  induction devices with
  | nil => intro acc; simp
  | cons d rest ih =>
    intro acc
    simp only [List.foldl_cons, ih]
    cases hr : run d with
    | ok r =>
      by_cases hs : r.success <;>
        · simp [fleetStep, hr, hs, resultEntryOf, recordsOf, errEntryOf,
            List.filterMap_cons, Prod.ext_iff]
          try omega
    | error e =>
      simp [fleetStep, hr, resultEntryOf, recordsOf, errEntryOf,
        List.filterMap_cons, Prod.ext_iff]
      try omega

/-- Claim C3: for command, session id, reply id and payload length each
below 2^16, `_create_header` yields exactly 10 bytes laying out
(command, 0, session_id, reply_id, payload_len) as consecutive unsigned
16-bit little-endian fields, and decoding at the offsets `connect` uses
(bytes 4..6 and 6..8) recovers the session and reply ids exactly. -/
theorem create_header_roundtrip (c s r p : Nat)
    (hc : c < 65536) (hs : s < 65536) (hr : r < 65536) (hp : p < 65536) :
    (create_header c s r p).length = 10 ∧
    readU16 (create_header c s r p) 0 = c ∧
    readU16 (create_header c s r p) 2 = 0 ∧
    readU16 (create_header c s r p) 4 = s ∧
    readU16 (create_header c s r p) 6 = r ∧
    readU16 (create_header c s r p) 8 = p := by
  refine ⟨?_, ?_, ?_, ?_, ?_, ?_⟩ <;>
    · simp [create_header, u16le, readU16]
      try omega

/-- Witness for `create_header_roundtrip` at a concrete header. -/
theorem create_header_roundtrip_witness :
    ((1000 : Nat) < 65536 ∧ (258 : Nat) < 65536 ∧ (1 : Nat) < 65536 ∧ (0 : Nat) < 65536) ∧
    ((create_header 1000 258 1 0).length = 10 ∧
      readU16 (create_header 1000 258 1 0) 0 = 1000 ∧
      readU16 (create_header 1000 258 1 0) 2 = 0 ∧
      readU16 (create_header 1000 258 1 0) 4 = 258 ∧
      readU16 (create_header 1000 258 1 0) 6 = 1 ∧
      readU16 (create_header 1000 258 1 0) 8 = 0) :=
  ⟨by decide,
    create_header_roundtrip 1000 258 1 0 (by decide) (by decide) (by decide) (by decide)⟩

/-- Claim C5: on a fresh connector, `connect` returns true exactly when
the response datagram has at least 8 bytes, in which case the session id
and reply id are taken from header offsets 4..6 and 6..8; on a timeout
or socket error (`NetReply.err`, the exception being caught rather than
propagated) and on a short response it returns false; and the connect
request itself is the command-1000 header carrying session id 0 and
reply id 0. -/
theorem connect_behaviour (ip : String) (port : Nat) (data dshort : List Nat)
    (h8 : 8 ≤ data.length) (hshort : dshort.length < 8) :
    (connect (initConn ip port) (NetReply.ok data)).1 = true ∧
    (connect (initConn ip port) (NetReply.ok data)).2.sessionId = readU16 data 4 ∧
    (connect (initConn ip port) (NetReply.ok data)).2.replyId = readU16 data 6 ∧
    (connect (initConn ip port) NetReply.err).1 = false ∧
    (connect (initConn ip port) (NetReply.ok dshort)).1 = false ∧
    connect_request (initConn ip port) = create_header 1000 0 0 0 ∧
    readU16 (connect_request (initConn ip port)) 4 = 0 ∧
    readU16 (connect_request (initConn ip port)) 6 = 0 := by
  refine ⟨?_, ?_, ?_, rfl, ?_, rfl, ?_, ?_⟩
  · simp [connect, h8]
  · simp [connect, h8]
  · simp [connect, h8]
  · simp [connect, show ¬ 8 ≤ dshort.length by omega]
  · simp [connect_request, initConn, create_header, u16le, readU16]
  · simp [connect_request, initConn, create_header, u16le, readU16]

/-- Witness for `connect_behaviour` at concrete replies. -/
theorem connect_behaviour_witness :
    (8 ≤ ([0, 0, 0, 0, 7, 0, 9, 0] : List Nat).length ∧
      ([1, 2, 3] : List Nat).length < 8) ∧
    ((connect (initConn ("10.0.0.1") 4370) (NetReply.ok ([0, 0, 0, 0, 7, 0, 9, 0]))).1 = true ∧
      (connect (initConn ("10.0.0.1") 4370)
        (NetReply.ok ([0, 0, 0, 0, 7, 0, 9, 0]))).2.sessionId
          = readU16 ([0, 0, 0, 0, 7, 0, 9, 0]) 4 ∧
      (connect (initConn ("10.0.0.1") 4370)
        (NetReply.ok ([0, 0, 0, 0, 7, 0, 9, 0]))).2.replyId
          = readU16 ([0, 0, 0, 0, 7, 0, 9, 0]) 6 ∧
      (connect (initConn ("10.0.0.1") 4370) NetReply.err).1 = false ∧
      (connect (initConn ("10.0.0.1") 4370) (NetReply.ok ([1, 2, 3]))).1 = false ∧
      connect_request (initConn ("10.0.0.1") 4370) = create_header 1000 0 0 0 ∧
      readU16 (connect_request (initConn ("10.0.0.1") 4370)) 4 = 0 ∧
      readU16 (connect_request (initConn ("10.0.0.1") 4370)) 6 = 0) :=
  ⟨by decide, connect_behaviour ("10.0.0.1") 4370 _ _ (by decide) (by decide)⟩

/-- Claim C2 (counterexample): on a connector whose socket was never
established, `get_attendance_logs` returns the ordinary value `[]` (the
internal `AttributeError` is caught at line 116 and logged), rather than
failing with a `NotConnected` error as the claim states. -/
theorem get_attendance_logs_disconnected_counterexample :
    get_attendance_logs (initConn ("203.0.113.9") 4370) (NetReply.ok ([1, 2, 3, 4])) = [] :=
  rfl

/-- Claim C2 (amended): invoking `get_attendance_logs` on any connector
without an established socket returns the empty list — the internal
exception is caught and logged — instead of surfacing a `NotConnected`
error. -/
theorem get_attendance_logs_disconnected_returns_empty (st : ConnState) (reply : NetReply)
    (h : st.socketOpen = false) :
    get_attendance_logs st reply = [] := by
  simp [get_attendance_logs, h]

/-- Witness for `get_attendance_logs_disconnected_returns_empty`. -/
theorem get_attendance_logs_disconnected_witness :
    (initConn ("198.51.100.2") 4370).socketOpen = false ∧
    get_attendance_logs (initConn ("198.51.100.2") 4370) NetReply.err = [] :=
  ⟨rfl, get_attendance_logs_disconnected_returns_empty _ _ rfl⟩

/-- Claim C1 (counterexample): when `connect` fails (here: the connect
exchange times out), `sync_device` returns through the early `return`
at line 141, which lies outside the `try/finally`; `disconnect` never
runs and the socket opened at line 41 during the failed connect attempt
is still open when the call returns. -/
theorem sync_device_connect_failure_leaks_socket :
    (sync_device ("192.0.2.7") 4370
      { connectReply := NetReply.err, logsReply := NetReply.err }
      (fun _ => none) noFail []).conn.socketOpen = true ∧
    (sync_device ("192.0.2.7") 4370
      { connectReply := NetReply.err, logsReply := NetReply.err }
      (fun _ => none) noFail []).res.success = false :=
  ⟨rfl, rfl⟩

/-- Claim C1 (amended): after every `sync_device` call in which
`connect` succeeded, `disconnect` has run — the `finally` at line 227
covers every exit path of the sync body (empty log, any log contents,
any per-record or store failure), so the socket is released.  Only the
connect-failure path (see `sync_device_connect_failure_leaks_socket`)
returns without disconnecting. -/
theorem sync_device_releases_socket_after_connect (ip : String) (port : Nat)
    (cd : List Nat) (lr : NetReply) (dir : String → Option String)
    (failAt : Nat → Bool) (store : List Checkin) (h8 : 8 ≤ cd.length) :
    (sync_device ip port { connectReply := NetReply.ok cd, logsReply := lr }
      dir failAt store).conn.socketOpen = false := by
  have hds : ∀ st : ConnState, (disconnect st).socketOpen = false := by
    intro st
    unfold disconnect
    split <;> simp_all
  have hc : (connect (initConn ip port) (NetReply.ok cd)).1 = true := by
    simp [connect, h8]
  simp only [sync_device, hc]
  simp only [Bool.true_eq_false, if_false]
  split <;> simp [hds]

/-- Witness for `sync_device_releases_socket_after_connect`. -/
theorem sync_device_release_witness :
    8 ≤ ([0, 0, 0, 0, 1, 0, 1, 0] : List Nat).length ∧
    (sync_device ("10.1.1.5") 4370
      { connectReply := NetReply.ok ([0, 0, 0, 0, 1, 0, 1, 0]), logsReply := NetReply.err }
      (fun _ => none) noFail []).conn.socketOpen = false :=
  ⟨by decide,
    sync_device_releases_socket_after_connect ("10.1.1.5") 4370 _ _ _ _ _ (by decide)⟩

/-- Claim C4: on a connected channel, `get_attendance_logs` decodes
consecutive 40-byte slots from offset 8: for a reply of length `L` it
returns exactly `(L - 8) / 40` records when `L ≥ 8` and the empty list
when `L < 8`; the trailing remainder shorter than 40 bytes is discarded
without error; decoding never reads past the consumed region of the
buffer (the result is unchanged when the buffer is truncated right
after the last complete slot); and the error path (timeout / socket
exception) is caught, returning `[]` rather than raising. -/
theorem get_attendance_logs_short_buffer_safe (st : ConnState) (data : List Nat)
    (hst : st.socketOpen = true) :
    (get_attendance_logs st (NetReply.ok data)).length
        = (if data.length < 8 then 0 else (data.length - 8) / 40) ∧
    get_attendance_logs st (NetReply.ok data)
        = get_attendance_logs st
            (NetReply.ok (data.take (8 + 40 * ((data.length - 8) / 40)))) ∧
    get_attendance_logs st NetReply.err = [] := by
  refine ⟨?_, ?_, by simp [get_attendance_logs, hst]⟩
  · by_cases h8 : data.length < 8
    · simp [get_attendance_logs, hst, h8]
    · simp [get_attendance_logs, hst, h8, parseLogs_length]
  · by_cases h8 : data.length < 8
    · have hq : (data.length - 8) / 40 = 0 := by omega
      have htk : (data.take (8 + 40 * ((data.length - 8) / 40))).length < 8 := by
        rw [hq]
        simp
        omega
      simp [get_attendance_logs, hst, h8, htk]
    · have hle : 40 * ((data.length - 8) / 40) ≤ data.length - 8 := by
        calc 40 * ((data.length - 8) / 40) = (data.length - 8) / 40 * 40 := by ring
        _ ≤ data.length - 8 := Nat.div_mul_le_self _ _
      have htk : ¬ (data.take (8 + 40 * ((data.length - 8) / 40))).length < 8 := by
        simp
        omega
      simp only [get_attendance_logs, hst]
      simp only [Bool.true_eq_false, if_false]
      rw [if_neg h8, if_neg htk]
      exact parseLogs_take data 8

/-- Witness for `get_attendance_logs_short_buffer_safe` on a 92-byte
reply (8-byte header, two complete slots, a 4-byte remainder). -/
theorem get_attendance_logs_short_buffer_witness :
    ({ device_ip := "10.0.0.3", device_port := 4370, sessionId := 1, replyId := 1,
       socketOpen := true } : ConnState).socketOpen = true ∧
    ((get_attendance_logs
        { device_ip := "10.0.0.3", device_port := 4370, sessionId := 1, replyId := 1,
          socketOpen := true }
        (NetReply.ok (List.replicate 92 0))).length
      = (if (List.replicate 92 (0 : Nat)).length < 8 then 0
          else ((List.replicate 92 (0 : Nat)).length - 8) / 40) ∧
      get_attendance_logs
        { device_ip := "10.0.0.3", device_port := 4370, sessionId := 1, replyId := 1,
          socketOpen := true }
        (NetReply.ok (List.replicate 92 0))
        = get_attendance_logs
            { device_ip := "10.0.0.3", device_port := 4370, sessionId := 1, replyId := 1,
              socketOpen := true }
            (NetReply.ok ((List.replicate 92 0).take
              (8 + 40 * (((List.replicate 92 (0 : Nat)).length - 8) / 40)))) ∧
      get_attendance_logs
        { device_ip := "10.0.0.3", device_port := 4370, sessionId := 1, replyId := 1,
          socketOpen := true } NetReply.err = []) :=
  ⟨rfl, get_attendance_logs_short_buffer_safe _ (List.replicate 92 0) rfl⟩

/-- Claim C7: re-running `sync_device` over the unchanged device log
against the store produced by the first run inserts no new Checkins and
returns `synced = 0`: every record whose (employee, time, log_type)
triple already exists in the destination store is skipped. -/
theorem sync_device_idempotent (ip : String) (port : Nat) (cd ld : List Nat)
    (dir : String → Option String) (store : List Checkin) (hcd : 8 ≤ cd.length) :
    (sync_device ip port { connectReply := NetReply.ok cd, logsReply := NetReply.ok ld }
        dir noFail
        (sync_device ip port
          { connectReply := NetReply.ok cd, logsReply := NetReply.ok ld }
          dir noFail store).store).store
      = (sync_device ip port
          { connectReply := NetReply.ok cd, logsReply := NetReply.ok ld }
          dir noFail store).store ∧
    (sync_device ip port { connectReply := NetReply.ok cd, logsReply := NetReply.ok ld }
        dir noFail
        (sync_device ip port
          { connectReply := NetReply.ok cd, logsReply := NetReply.ok ld }
          dir noFail store).store).res.synced = some 0 := by
  have hc1 : (connect (initConn ip port) (NetReply.ok cd)).1 = true := by
    simp [connect, hcd]
  simp only [sync_device, hc1, Bool.true_eq_false, if_false]
  generalize hlg :
    get_attendance_logs (connect (initConn ip port) (NetReply.ok cd)).2
      (NetReply.ok ld) = logs
  by_cases hemp : logs.isEmpty
  · simp [hemp]
  · simp only [Bool.not_eq_true] at hemp
    simp only [hemp, Bool.false_eq_true, if_false]
    have hcov : ∀ l ∈ logs, ∀ e, dir (toString l.user_id) = some e →
        checkinExists
          (processLogs ip dir noFail 0 logs
            { synced := 0, errors := [], store := store }).store
          e l.timestamp (logTypeOf l.in_out_type) = true :=
      fun l hl e he =>
        processLogs_covers ip dir logs 0 { synced := 0, errors := [], store := store } l e hl he
    have hnoop := processLogs_noop ip dir logs 0
      { synced := 0, errors := []
        store := (processLogs ip dir noFail 0 logs
          { synced := 0, errors := [], store := store }).store } hcov
    simp only [] at hnoop
    exact ⟨hnoop.2, by rw [hnoop.1]⟩

/-- Witness for `sync_device_idempotent`: a reply holding one record for
user 7, with "7" mapped to an employee and an initially empty store. -/
theorem sync_device_idempotent_witness :
    8 ≤ ([0, 0, 0, 0, 1, 0, 1, 0] : List Nat).length ∧
    ((sync_device ("10.2.2.2") 4370
        { connectReply := NetReply.ok ([0, 0, 0, 0, 1, 0, 1, 0])
          logsReply := NetReply.ok (List.replicate 8 0 ++ slotBytes 7 1000 1 0) }
        (fun s => if s == "7" then some ("EMP-001") else none) noFail
        (sync_device ("10.2.2.2") 4370
          { connectReply := NetReply.ok ([0, 0, 0, 0, 1, 0, 1, 0])
            logsReply := NetReply.ok (List.replicate 8 0 ++ slotBytes 7 1000 1 0) }
          (fun s => if s == "7" then some ("EMP-001") else none) noFail []).store).store
      = (sync_device ("10.2.2.2") 4370
          { connectReply := NetReply.ok ([0, 0, 0, 0, 1, 0, 1, 0])
            logsReply := NetReply.ok (List.replicate 8 0 ++ slotBytes 7 1000 1 0) }
          (fun s => if s == "7" then some ("EMP-001") else none) noFail []).store ∧
      (sync_device ("10.2.2.2") 4370
        { connectReply := NetReply.ok ([0, 0, 0, 0, 1, 0, 1, 0])
          logsReply := NetReply.ok (List.replicate 8 0 ++ slotBytes 7 1000 1 0) }
        (fun s => if s == "7" then some ("EMP-001") else none) noFail
        (sync_device ("10.2.2.2") 4370
          { connectReply := NetReply.ok ([0, 0, 0, 0, 1, 0, 1, 0])
            logsReply := NetReply.ok (List.replicate 8 0 ++ slotBytes 7 1000 1 0) }
          (fun s => if s == "7" then some ("EMP-001") else none) noFail []).store).res.synced
        = some 0) :=
  ⟨by decide,
    sync_device_idempotent ("10.2.2.2") 4370 _ _
      (fun s => if s == "7" then some ("EMP-001") else none) [] (by decide)⟩

/-- Claim C6: for a device log consisting (in any order) of one record
whose user id resolves to no employee and two records that resolve and
are new to the store (distinct dedup keys, i.e. each is still new when
it is processed), `sync_device` returns `synced = 2` and an error list
with exactly one entry identifying the unmapped device id; the
unresolved record is skipped without aborting the remaining records. -/
theorem sync_device_partial_failure_isolation (ip : String) (port : Nat)
    (cd ld : List Nat) (dir : String → Option String) (store : List Checkin)
    (b g1 g2 : PunchLog) (e1 e2 : String)
    (hcd : 8 ≤ cd.length)
    (hperm : (parseLogs ld 8).Perm [b, g1, g2])
    (hb : dir (toString b.user_id) = none)
    (h1 : dir (toString g1.user_id) = some e1)
    (h2 : dir (toString g2.user_id) = some e2)
    (hn1 : checkinExists store e1 g1.timestamp (logTypeOf g1.in_out_type) = false)
    (hn2 : checkinExists store e2 g2.timestamp (logTypeOf g2.in_out_type) = false)
    (hkey : (e1, g1.timestamp, logTypeOf g1.in_out_type)
        ≠ (e2, g2.timestamp, logTypeOf g2.in_out_type)) :
    (sync_device ip port { connectReply := NetReply.ok cd, logsReply := NetReply.ok ld }
        dir noFail store).res.synced = some 2 ∧
    (sync_device ip port { connectReply := NetReply.ok cd, logsReply := NetReply.ok ld }
        dir noFail store).res.errors = some [employeeNotFoundMsg b.user_id] := by
  have hlen3 : (parseLogs ld 8).length = 3 := by
    rw [hperm.length_eq]
    rfl
  have hld : ¬ ld.length < 8 := by
    intro h
    rw [parseLogs_stop ld 8 (by omega)] at hlen3
    simp at hlen3
  have hc1 : (connect (initConn ip port) (NetReply.ok cd)).1 = true := by
    simp [connect, hcd]
  simp only [sync_device, hc1, Bool.true_eq_false, if_false]
  have hga : get_attendance_logs (connect (initConn ip port) (NetReply.ok cd)).2
      (NetReply.ok ld) = parseLogs ld 8 := by
    simp [get_attendance_logs, connect, hcd, hld]
  rw [hga]
  have hempty : (parseLogs ld 8).isEmpty = false := by
    cases hpl : parseLogs ld 8 with
    | nil => rw [hpl] at hlen3; simp at hlen3
    | cons x xs => simp
  simp only [hempty, Bool.false_eq_true, if_false]
  have hkeys : ((parseLogs ld 8).filterMap (keyOf dir)).Nodup := by
    have hpk := hperm.filterMap (keyOf dir)
    rw [List.Perm.nodup_iff hpk]
    simp [List.filterMap_cons, keyOf, hb, h1, h2, List.nodup_cons]
    intro ha hb2 hcc
    exact hkey (by rw [ha, hb2, hcc])
  have hsy := processLogs_synced ip dir (parseLogs ld 8) 0
    { synced := 0, errors := [], store := store } hkeys
  have hcount : (parseLogs ld 8).countP
      (newGood dir ({ synced := 0, errors := [], store := store } : ProcState).store) = 2 := by
    rw [List.Perm.countP_eq _ hperm]
    simp [List.countP_cons, newGood, hb, h1, h2, hn1, hn2]
  have herr := processLogs_errors ip dir (parseLogs ld 8) 0
    { synced := 0, errors := [], store := store }
  have herrval : (parseLogs ld 8).filterMap (unresolvedMsg dir)
      = [employeeNotFoundMsg b.user_id] := by
    have hp2 := hperm.filterMap (unresolvedMsg dir)
    have hconc : [b, g1, g2].filterMap (unresolvedMsg dir)
        = [employeeNotFoundMsg b.user_id] := by
      simp [List.filterMap_cons, unresolvedMsg, hb, h1, h2]
    rw [hconc] at hp2
    exact List.perm_singleton.mp hp2
  constructor
  · rw [hsy, hcount]
  · rw [herr, herrval]
    simp

set_option maxRecDepth 8000 in
/-- Witness for `sync_device_partial_failure_isolation`: a reply holding
three records — user 99 (unmapped), and two mapped records for user 7 —
against an empty store. -/
theorem sync_device_partial_failure_witness :
    (8 ≤ ([0, 0, 0, 0, 1, 0, 1, 0] : List Nat).length ∧
      (parseLogs (List.replicate 8 0 ++ slotBytes 99 500 0 0 ++ slotBytes 7 1000 0 0
          ++ slotBytes 7 2000 0 1) 8).Perm
        [{ user_id := 99, timestamp := 500, verify_type := 0, in_out_type := 0 },
         { user_id := 7, timestamp := 1000, verify_type := 0, in_out_type := 0 },
         { user_id := 7, timestamp := 2000, verify_type := 0, in_out_type := 1 }] ∧
      (fun s => if s == "7" then some ("EMP-001") else none) (toString (99 : Nat)) = none ∧
      (fun s => if s == "7" then some ("EMP-001") else none) (toString (7 : Nat))
        = some ("EMP-001") ∧
      checkinExists [] ("EMP-001") 1000 (logTypeOf 0) = false ∧
      checkinExists [] ("EMP-001") 2000 (logTypeOf 1) = false ∧
      (("EMP-001", 1000, logTypeOf 0) : String × Nat × String)
        ≠ ("EMP-001", 2000, logTypeOf 1)) ∧
    ((sync_device ("10.3.3.3") 4370
        { connectReply := NetReply.ok ([0, 0, 0, 0, 1, 0, 1, 0])
          logsReply := NetReply.ok (List.replicate 8 0 ++ slotBytes 99 500 0 0
            ++ slotBytes 7 1000 0 0 ++ slotBytes 7 2000 0 1) }
        (fun s => if s == "7" then some ("EMP-001") else none) noFail []).res.synced
        = some 2 ∧
      (sync_device ("10.3.3.3") 4370
        { connectReply := NetReply.ok ([0, 0, 0, 0, 1, 0, 1, 0])
          logsReply := NetReply.ok (List.replicate 8 0 ++ slotBytes 99 500 0 0
            ++ slotBytes 7 1000 0 0 ++ slotBytes 7 2000 0 1) }
        (fun s => if s == "7" then some ("EMP-001") else none) noFail []).res.errors
        = some [employeeNotFoundMsg 99]) := by
  have hperm :
      (parseLogs (List.replicate 8 0 ++ slotBytes 99 500 0 0 ++ slotBytes 7 1000 0 0
          ++ slotBytes 7 2000 0 1) 8).Perm
        [{ user_id := 99, timestamp := 500, verify_type := 0, in_out_type := 0 },
         { user_id := 7, timestamp := 1000, verify_type := 0, in_out_type := 0 },
         { user_id := 7, timestamp := 2000, verify_type := 0, in_out_type := 1 }] := by
    rw [parseLogs_step _ _ (by decide), parseLogs_step _ _ (by decide),
      parseLogs_step _ _ (by decide), parseLogs_stop _ _ (by decide)]
    decide
  refine ⟨⟨by decide, hperm, by decide, by decide, by decide, by decide, by decide⟩, ?_⟩
  exact sync_device_partial_failure_isolation ("10.3.3.3") 4370 _ _
    (fun s => if s == "7" then some ("EMP-001") else none) []
    { user_id := 99, timestamp := 500, verify_type := 0, in_out_type := 0 }
    { user_id := 7, timestamp := 1000, verify_type := 0, in_out_type := 0 }
    { user_id := 7, timestamp := 2000, verify_type := 0, in_out_type := 1 }
    ("EMP-001") ("EMP-001") (by decide) hperm (by decide) (by decide) (by decide)
    (by decide) (by decide) (by decide)

theorem slot_fields_bare (uid ts vt io : Nat)
    (huid : uid < 4294967296) (hts : ts < 4294967296) :
    readU32 (slotBytes uid ts vt io) 0 = uid ∧
    readU32 (slotBytes uid ts vt io) 4 = ts ∧
    (slotBytes uid ts vt io).getD 8 0 = vt ∧
    (slotBytes uid ts vt io).getD 9 0 = io := by
  have h := slot_fields uid ts vt io [] huid hts
  simpa using h

/-- Claim C9: for a reply made of an 8-byte header followed by two
40-byte slots — slot 1 with user 7, timestamp `T`, in/out byte 0 and
slot 2 with user 7, timestamp `T + 3600`, in/out byte `io2 ≠ 0` — and a
directory mapping "7" to "EMP-001", `sync_device` against an empty
store inserts exactly the Checkins (EMP-001, T, "IN") and
(EMP-001, T + 3600, "OUT") and returns `synced = 2`; the in/out byte 0
maps to "IN" and every non-zero value to "OUT". -/
theorem sync_device_concrete_scenario (ip : String) (port : Nat) (hdr cd : List Nat)
    (dir : String → Option String) (T v1 v2 io2 : Nat)
    (hcd : 8 ≤ cd.length) (hhdr : hdr.length = 8)
    (hdir : dir ("7") = some ("EMP-001"))
    (hT : T + 3600 < 4294967296)
    (hio2 : io2 ≠ 0) :
    (sync_device ip port
        { connectReply := NetReply.ok cd
          logsReply := NetReply.ok (hdr ++ slotBytes 7 T v1 0
            ++ slotBytes 7 (T + 3600) v2 io2) }
        dir noFail []).res.synced = some 2 ∧
    (sync_device ip port
        { connectReply := NetReply.ok cd
          logsReply := NetReply.ok (hdr ++ slotBytes 7 T v1 0
            ++ slotBytes 7 (T + 3600) v2 io2) }
        dir noFail []).store
      = [{ employee := "EMP-001", time := T, log_type := "IN", device_id := ip },
         { employee := "EMP-001", time := T + 3600, log_type := "OUT", device_id := ip }] ∧
    (sync_device ip port
        { connectReply := NetReply.ok cd
          logsReply := NetReply.ok (hdr ++ slotBytes 7 T v1 0
            ++ slotBytes 7 (T + 3600) v2 io2) }
        dir noFail []).res.errors = none ∧
    logTypeOf 0 = "IN" ∧ logTypeOf io2 = "OUT" := by
  have hlt2 : logTypeOf io2 = "OUT" := by
    simp [logTypeOf, hio2]
  have hdl : (hdr ++ slotBytes 7 T v1 0 ++ slotBytes 7 (T + 3600) v2 io2).length = 88 := by
    simp [List.length_append, hhdr, slotBytes_length]
  have hslot1 : decodeSlot (hdr ++ slotBytes 7 T v1 0 ++ slotBytes 7 (T + 3600) v2 io2) 8
      = { user_id := 7, timestamp := T, verify_type := v1, in_out_type := 0 } := by
    rw [List.append_assoc, show (8 : Nat) = hdr.length by omega, decodeSlot_at_prefix]
    have hf := slot_fields 7 T v1 0 (slotBytes 7 (T + 3600) v2 io2) (by omega) (by omega)
    rw [hf.1, hf.2.1, hf.2.2.1, hf.2.2.2]
  have hlen48 : (hdr ++ slotBytes 7 T v1 0).length = 8 + 40 := by
    simp [List.length_append, hhdr, slotBytes_length]
  have hslot2 : decodeSlot (hdr ++ slotBytes 7 T v1 0 ++ slotBytes 7 (T + 3600) v2 io2)
        (8 + 40)
      = { user_id := 7, timestamp := T + 3600, verify_type := v2, in_out_type := io2 } := by
    rw [show (8 + 40 : Nat) = (hdr ++ slotBytes 7 T v1 0).length by omega, decodeSlot_at_prefix]
    have hf := slot_fields_bare 7 (T + 3600) v2 io2 (by omega) (by omega)
    rw [hf.1, hf.2.1, hf.2.2.1, hf.2.2.2]
  have hlogs : parseLogs (hdr ++ slotBytes 7 T v1 0 ++ slotBytes 7 (T + 3600) v2 io2) 8
      = [{ user_id := 7, timestamp := T, verify_type := v1, in_out_type := 0 },
         { user_id := 7, timestamp := T + 3600, verify_type := v2, in_out_type := io2 }] := by
    rw [parseLogs_step _ 8 (by omega), parseLogs_step _ (8 + 40) (by omega),
      parseLogs_stop _ (8 + 40 + 40) (by omega), hslot1, hslot2]
  have hc1 : (connect (initConn ip port) (NetReply.ok cd)).1 = true := by
    simp [connect, hcd]
  have h7 : toString (7 : Nat) = "7" := by decide
  simp only [sync_device, hc1, Bool.true_eq_false, if_false]
  have hso : (connect (initConn ip port) (NetReply.ok cd)).2.socketOpen = true := by
    simp [connect, hcd]
  have hlt8 : ¬ (hdr ++ slotBytes 7 T v1 0 ++ slotBytes 7 (T + 3600) v2 io2).length < 8 := by
    omega
  have hga : get_attendance_logs (connect (initConn ip port) (NetReply.ok cd)).2
      (NetReply.ok (hdr ++ slotBytes 7 T v1 0 ++ slotBytes 7 (T + 3600) v2 io2))
      = parseLogs (hdr ++ slotBytes 7 T v1 0 ++ slotBytes 7 (T + 3600) v2 io2) 8 := by
    simp only [get_attendance_logs, hso, Bool.true_eq_false, if_false]
    rw [if_neg hlt8]
  rw [hga, hlogs]
  have hex2 : checkinExists
      [{ employee := "EMP-001", time := T, log_type := logTypeOf 0, device_id := ip }]
      ("EMP-001") (T + 3600) (logTypeOf io2) = false := by
    simp [checkinExists, logTypeOf]
  simp only [List.isEmpty_cons, Bool.false_eq_true, if_false]
  simp [processLogs, processOne, h7, hdir, checkinExists, noFail, hlt2, logTypeOf]
  omega

/-- Witness for `sync_device_concrete_scenario` at `T = 1000`. -/
theorem sync_device_concrete_scenario_witness :
    (8 ≤ ([9, 9, 9, 9, 5, 0, 6, 0] : List Nat).length ∧
      (List.replicate 8 (1 : Nat)).length = 8 ∧
      (fun s => if s == "7" then some ("EMP-001") else none) ("7") = some ("EMP-001") ∧
      1000 + 3600 < 4294967296 ∧
      (1 : Nat) ≠ 0) ∧
    ((sync_device ("ip1") 4370
        { connectReply := NetReply.ok ([9, 9, 9, 9, 5, 0, 6, 0])
          logsReply := NetReply.ok (List.replicate 8 1 ++ slotBytes 7 1000 3 0
            ++ slotBytes 7 (1000 + 3600) 4 1) }
        (fun s => if s == "7" then some ("EMP-001") else none) noFail []).res.synced
        = some 2 ∧
      (sync_device ("ip1") 4370
        { connectReply := NetReply.ok ([9, 9, 9, 9, 5, 0, 6, 0])
          logsReply := NetReply.ok (List.replicate 8 1 ++ slotBytes 7 1000 3 0
            ++ slotBytes 7 (1000 + 3600) 4 1) }
        (fun s => if s == "7" then some ("EMP-001") else none) noFail []).store
        = [{ employee := "EMP-001", time := 1000, log_type := "IN", device_id := "ip1" },
           { employee := "EMP-001", time := 1000 + 3600, log_type := "OUT",
             device_id := "ip1" }] ∧
      (sync_device ("ip1") 4370
        { connectReply := NetReply.ok ([9, 9, 9, 9, 5, 0, 6, 0])
          logsReply := NetReply.ok (List.replicate 8 1 ++ slotBytes 7 1000 3 0
            ++ slotBytes 7 (1000 + 3600) 4 1) }
        (fun s => if s == "7" then some ("EMP-001") else none) noFail []).res.errors
        = none ∧
      logTypeOf 0 = "IN" ∧ logTypeOf 1 = "OUT") :=
  ⟨⟨by decide, by decide, by decide, by decide, by decide⟩,
    sync_device_concrete_scenario ("ip1") 4370 (List.replicate 8 1)
      ([9, 9, 9, 9, 5, 0, 6, 0]) (fun s => if s == "7" then some ("EMP-001") else none)
      1000 3 4 1 (by decide) (by decide) (by decide) (by decide) (by decide)⟩

/-- Claim C10: two device replies of equal length that agree on every
byte the decoder uses (header bytes, and each slot's user-id, timestamp
and in/out bytes) — i.e. differ only in verify-type and reserved slot
bytes — produce identical `sync_device` outcomes against the same
directory, store and per-record failure pattern: same Checkins, same
synced count, same error list. -/
theorem sync_device_unused_bytes_noninterference (ip : String) (port : Nat)
    (cr : NetReply) (d1 d2 : List Nat) (dir : String → Option String)
    (failAt : Nat → Bool) (store : List Checkin)
    (hlen : d1.length = d2.length)
    (hag : ∀ i, i < d1.length → relevantPos i → d1.getD i 0 = d2.getD i 0) :
    sync_device ip port { connectReply := cr, logsReply := NetReply.ok d1 }
      dir failAt store
      = sync_device ip port { connectReply := cr, logsReply := NetReply.ok d2 }
          dir failAt store := by
  have hobs : List.Forall₂ SameObs (parseLogs d1 8) (parseLogs d2 8) := by
    have h := parseLogs_agree d1 d2 hlen hag 0
    simpa using h
  by_cases hc : (connect (initConn ip port) cr).1 = false
  · simp [sync_device, hc]
  · have hso : (connect (initConn ip port) cr).2.socketOpen = true := by
      cases cr with
      | err => rfl
      | ok data =>
        by_cases h8 : 8 ≤ data.length <;> simp [connect, h8]
    have hrel : List.Forall₂ SameObs
        (get_attendance_logs (connect (initConn ip port) cr).2 (NetReply.ok d1))
        (get_attendance_logs (connect (initConn ip port) cr).2 (NetReply.ok d2)) := by
      simp only [get_attendance_logs, hso, Bool.true_eq_false, if_false]
      by_cases h8 : d1.length < 8
      · rw [if_pos h8, if_pos (by omega)]
        exact List.Forall₂.nil
      · rw [if_neg h8, if_neg (by omega)]
        exact hobs
    simp only [sync_device]
    rw [if_neg hc, if_neg hc]
    generalize hg1 :
      get_attendance_logs (connect (initConn ip port) cr).2 (NetReply.ok d1) = L1
    generalize hg2 :
      get_attendance_logs (connect (initConn ip port) cr).2 (NetReply.ok d2) = L2
    rw [hg1, hg2] at hrel
    cases hrel with
    | nil => rfl
    | cons hxy htail =>
      simp only [List.isEmpty_cons, Bool.false_eq_true, if_false]
      rw [processLogs_obs ip dir failAt _ _ (List.Forall₂.cons hxy htail) 0
        { synced := 0, errors := [], store := store }]

set_option maxRecDepth 8000 in
/-- Witness for `sync_device_unused_bytes_noninterference`: two replies
differing only in the slot's verify-type byte (9 instead of 0). -/
theorem sync_device_noninterference_witness :
    ((List.replicate 8 0 ++ slotBytes 7 1000 0 0).length
        = (List.replicate 8 0 ++ slotBytes 7 1000 9 0).length ∧
      (∀ i, i < (List.replicate 8 0 ++ slotBytes 7 1000 0 0).length → relevantPos i →
        (List.replicate 8 0 ++ slotBytes 7 1000 0 0).getD i 0
          = (List.replicate 8 0 ++ slotBytes 7 1000 9 0).getD i 0)) ∧
    sync_device ("10.4.4.4") 4370
      { connectReply := NetReply.ok ([0, 0, 0, 0, 2, 0, 3, 0])
        logsReply := NetReply.ok (List.replicate 8 0 ++ slotBytes 7 1000 0 0) }
      (fun s => if s == "7" then some ("EMP-001") else none) noFail []
      = sync_device ("10.4.4.4") 4370
          { connectReply := NetReply.ok ([0, 0, 0, 0, 2, 0, 3, 0])
            logsReply := NetReply.ok (List.replicate 8 0 ++ slotBytes 7 1000 9 0) }
          (fun s => if s == "7" then some ("EMP-001") else none) noFail [] :=
  ⟨⟨by decide, by simp only [relevantPos]; decide⟩,
    sync_device_unused_bytes_noninterference ("10.4.4.4") 4370
      (NetReply.ok ([0, 0, 0, 0, 2, 0, 3, 0])) _ _
      (fun s => if s == "7" then some ("EMP-001") else none) noFail []
      (by decide) (by simp only [relevantPos]; decide)⟩

/-- Claim C8: `sync_all_devices` with an empty enabled list returns
success with `devices_synced = 0` and the explanatory message; with a
non-empty list it attempts every device, reports
`devices_synced = devices.length`, one error entry per failed device
(failure result or raised exception), sums `total_records` over the
successful devices only, and returns `success = true`; only an
orchestration-level exception (configuration load failure) yields
`success = false`. -/
theorem sync_all_devices_aggregation (devices : List Device)
    (run : Device → Except String SyncRes) (e : String) (hne : devices ≠ []) :
    sync_all_devices (Except.ok []) run
      = { success := true
          message := "No enabled devices found. Please configure and enable devices in Biometric Device Settings."
          devices_synced := 0, total_records := none, results := none, errors := none } ∧
    (sync_all_devices (Except.ok devices) run).success = true ∧
    (sync_all_devices (Except.ok devices) run).devices_synced = devices.length ∧
    (sync_all_devices (Except.ok devices) run).total_records
      = some ((devices.map (recordsOf run)).sum) ∧
    (sync_all_devices (Except.ok devices) run).errors
      = (if (devices.filterMap (errEntryOf run)).isEmpty then none
          else some (devices.filterMap (errEntryOf run))) ∧
    (sync_all_devices (Except.ok devices) run).results
      = some (devices.filterMap (resultEntryOf run)) ∧
    sync_all_devices (Except.error e) run
      = { success := false, message := "Error syncing devices: " ++ e
          devices_synced := 0, total_records := none, results := none, errors := none } := by
  have hne2 : devices.isEmpty = false := by
    cases devices with
    | nil => cases hne rfl
    | cons d rest => rfl
  have hfold := fleetFold run devices ([], 0, [])
  refine ⟨rfl, ?_, ?_, ?_, ?_, ?_, rfl⟩ <;>
    simp [sync_all_devices, hne2, hfold]

/-- Witness for `sync_all_devices_aggregation` on a two-device fleet
where the second device's sync raises. -/
theorem sync_all_devices_aggregation_witness :
    ([{ name := "D1", device_ip := "1.1.1.1", device_port := 4370 },
      { name := "D2", device_ip := "2.2.2.2", device_port := 4370 }] : List Device) ≠ [] ∧
    ((sync_all_devices
        (Except.ok [{ name := "D1", device_ip := "1.1.1.1", device_port := 4370 },
          { name := "D2", device_ip := "2.2.2.2", device_port := 4370 }])
        (fun d => if d.name == "D1"
          then Except.ok { success := true, message := "ok", synced := some 3, errors := none }
          else Except.error ("boom"))).success = true ∧
      (sync_all_devices
        (Except.ok [{ name := "D1", device_ip := "1.1.1.1", device_port := 4370 },
          { name := "D2", device_ip := "2.2.2.2", device_port := 4370 }])
        (fun d => if d.name == "D1"
          then Except.ok { success := true, message := "ok", synced := some 3, errors := none }
          else Except.error ("boom"))).devices_synced = 2 ∧
      (sync_all_devices
        (Except.ok [{ name := "D1", device_ip := "1.1.1.1", device_port := 4370 },
          { name := "D2", device_ip := "2.2.2.2", device_port := 4370 }])
        (fun d => if d.name == "D1"
          then Except.ok { success := true, message := "ok", synced := some 3, errors := none }
          else Except.error ("boom"))).total_records = some 3 ∧
      (sync_all_devices
        (Except.ok [{ name := "D1", device_ip := "1.1.1.1", device_port := 4370 },
          { name := "D2", device_ip := "2.2.2.2", device_port := 4370 }])
        (fun d => if d.name == "D1"
          then Except.ok { success := true, message := "ok", synced := some 3, errors := none }
          else Except.error ("boom"))).errors = some ["D2: boom"] ∧
      (sync_all_devices (Except.error ("db down"))
        (fun d => if d.name == "D1"
          then Except.ok { success := true, message := "ok", synced := some 3, errors := none }
          else Except.error ("boom"))).success = false) := by
  have h := sync_all_devices_aggregation
    [{ name := "D1", device_ip := "1.1.1.1", device_port := 4370 },
     { name := "D2", device_ip := "2.2.2.2", device_port := 4370 }]
    (fun d => if d.name == "D1"
      then Except.ok { success := true, message := "ok", synced := some 3, errors := none }
      else Except.error ("boom"))
    ("db down") (by decide)
  refine ⟨by decide, h.2.1, h.2.2.1, ?_, ?_, ?_⟩
  · rw [h.2.2.2.1]
    decide
  · rw [h.2.2.2.2.1]
    decide
  · rw [h.2.2.2.2.2.2]
